import Mathlib

/-
Verification of the DataPrep upload-workflow orchestrator
(src/frontend/src/pages/UploadPage.jsx) against its specification.

The React component is shallowly embedded as follows.

* Each `useState` hook becomes a field of `ComponentState`.
* React's functional-component semantics are modelled faithfully: an event
  handler closes over the state values of the render in which it was created
  (the "snapshot"), and `setX(v)` only takes effect at the next render.  A
  handler is therefore a function of two states: `snap`, the render snapshot
  its closure reads, and `p`, the pending state its set-calls accumulate
  into.  A handler invoked synchronously from another handler (such as
  `handleDuplicatesCheck` called from `handleSchemaMatchConfirm`) reads the
  SAME snapshot, so set-calls made earlier in the turn are not visible to it.
  Functional updaters (`setDetails (prev => ...)`) read the pending state.
* Each `fetch` to a backend stage endpoint is recorded in an emitted trace of
  `StageCall` values carrying exactly the form fields the code appends, and
  its outcome is read from an `Env` of backend responses (one per endpoint):
  a non-success HTTP status with the response text, a malformed body
  (res.json() rejects), or a decoded payload.
* `handleDuplicatesCheck` is `async` but invoked WITHOUT `await` from both of
  its call sites, and contains no try/catch: a `throw` inside it is an
  unhandled promise rejection that aborts the function without running any
  catch handler.  This is modelled by splitting it into its synchronous
  prefix (up to the fetch, which dispatches the request) and a continuation
  that may abort (`none`).  When it is started from inside `handleUpload`'s
  try block, `handleUpload`'s `finally` (setLoading(false)) runs between the
  two parts.
-/

namespace DataPrep

/-- A data row: a record mapping column names to string values. -/
abbrev Row := List (String × String)

/-- The metadata object built by proceedWithInsert when row_count > 0. -/
structure InsertMeta where
  table_name : String
  file_id : Nat
  batch_id : Nat
  run_id : Nat
  row_count : Nat
  deriving Repr, DecidableEq

/-- The `details` record of the component state: the useState initial object
plus every field the stage handlers merge into it.  The empty JS object used
for `metadata`, and the absence of the ad hoc `target_table` key, are
modelled as `none`. -/
structure Details where
  inferred_types : List (String × String)
  sample_row_numbers : List Nat
  schema_query : Option String
  inserted_rows : List Row
  metadata : Option InsertMeta
  duplicates : List Row
  has_duplicates : Bool
  target_table : Option String
  deriving Repr, DecidableEq

/-- The initial value passed to useState for `details`. -/
def initialDetails : Details :=
  { inferred_types := [], sample_row_numbers := [], schema_query := none,
    inserted_rows := [], metadata := none, duplicates := [],
    has_duplicates := false, target_table := none }

/-- One entry of the get-batch-file-ids listing. -/
structure BatchRec where
  file_id : Nat
  batch_id : Nat
  file_name : String
  deriving Repr, DecidableEq

/-- Outcome of one fetch call. -/
inductive FetchResult (α : Type) where
  | httpError (status : Nat) (errorText : String)
  | decodeError (errorText : String)
  | ok (data : α)
  deriving Repr, DecidableEq

/-- Whether a fetch produced a decoded success payload. -/
def FetchResult.isOk {α : Type} : FetchResult α → Bool
  | .ok _ => true
  | _ => false

/-- Decoded body of a successful infer-types response. -/
structure InferResp where
  inferred_types : List (String × String)
  deriving Repr, DecidableEq

/-- Decoded body of a successful sample-rows response. -/
structure SampleResp where
  sample_row_numbers : List Nat
  deriving Repr, DecidableEq

/-- Decoded body of a successful generate-schema response. -/
structure SchemaResp where
  schema_query : Option String
  target_table : Option String
  matching_table : Option String
  csv_sample_rows : List Row
  existing_sample_rows : List Row
  deriving Repr, DecidableEq

/-- Decoded body of a successful check-duplicates response. -/
structure DupResp where
  duplicates : List Row
  has_duplicates : Bool
  message : String
  deriving Repr, DecidableEq

/-- Decoded body of a successful confirm-insert response. -/
structure InsertResp where
  table_name : String
  file_id : Nat
  batch_id : Nat
  run_id : Nat
  row_count : Nat
  message : String
  deriving Repr, DecidableEq

/-- The backend responses one run can observe, one per stage endpoint. -/
structure Env where
  inferResult : FetchResult InferResp
  sampleResult : FetchResult SampleResp
  schemaResult : FetchResult SchemaResp
  dupResult : FetchResult DupResp
  insertResult : FetchResult InsertResp
  deriving Repr, DecidableEq

/-- One remote stage request with the form fields the code appends to it. -/
inductive StageCall where
  | inferTypes (file : Option Nat) (table_name primary_column : String)
  | sampleRows (file : Option Nat) (table_name primary_column : String)
  | generateSchema (file : Option Nat) (table_name primary_column : String)
  | checkDuplicates (file : Option Nat) (table_name primary_column : String)
      (target_table : Option String)
  | confirmInsert (file : Option Nat) (table_name primary_column : String)
      (target_table : Option String) (proceed : Bool)
  deriving Repr, DecidableEq

/-- Pipeline position of a stage call, 1 through 5. -/
def stageOf : StageCall → Nat
  | .inferTypes .. => 1
  | .sampleRows .. => 2
  | .generateSchema .. => 3
  | .checkDuplicates .. => 4
  | .confirmInsert .. => 5

/-- Whether a trace contains a call of the given pipeline stage. -/
def hasStage (tr : List StageCall) (k : Nat) : Bool :=
  tr.any (fun c => stageOf c == k)

/-- The React component state: one field per useState hook that the
orchestration logic touches (`expandedSection`, a purely visual toggle,
is omitted). -/
structure ComponentState where
  file : Option Nat
  csvColumns : List String
  tableName : String
  primaryColumn : String
  message : String
  details : Details
  loading : Bool
  batchFileIds : List BatchRec
  selectedBatchId : Option Nat
  selectedFileId : Option Nat
  batchData : Option (List Row)
  showConfirmDialog : Bool
  showSchemaMatchDialog : Bool
  schemaMatchData : Option SchemaResp
  step : Nat
  useExistingTable : Bool
  deriving Repr, DecidableEq

/-- The useState initial values. -/
def initialState : ComponentState :=
  { file := none, csvColumns := [], tableName := "", primaryColumn := "",
    message := "", details := initialDetails, loading := false,
    batchFileIds := [], selectedBatchId := none, selectedFileId := none,
    batchData := none, showConfirmDialog := false,
    showSchemaMatchDialog := false, schemaMatchData := none, step := 0,
    useExistingTable := false }

/-- JS truthiness of an optional string field: null, undefined and the empty
string are falsy. -/
def jsTruthyStr : Option String → Bool
  | none => false
  | some s => !(s == "")

/-- Drop leading whitespace characters. -/
def dropLeadWS : List Char → List Char
  | [] => []
  | c :: cs => if c.isWhitespace then dropLeadWS cs else c :: cs

/-- String.prototype.trim: strip whitespace from both ends. -/
def jsTrim (s : String) : String :=
  ⟨(dropLeadWS (dropLeadWS s.data).reverse).reverse⟩

/-- Whether the first list is an initial segment of the second. -/
def charsLeadMatch : List Char → List Char → Bool
  | [], _ => true
  | _ :: _, [] => false
  | a :: as, b :: bs => a == b && charsLeadMatch as bs

/-- Whether `pat` occurs as a contiguous segment of the second list. -/
def charsContains (pat : List Char) : List Char → Bool
  | [] => charsLeadMatch pat []
  | c :: rest => charsLeadMatch pat (c :: rest) || charsContains pat rest

/-- String.prototype.includes. -/
def strIncludes (s pat : String) : Bool :=
  charsContains pat.data s.data

/-- Splitting the file content on newlines and parsing the first line into
header names: trim each and strip every double quote (handleFileChange's
FileReader onload). -/
def parseCsvHeaders (content : String) : List String :=
  match content.splitOn "\n" with
  | [] => []
  | line :: _ => (line.splitOn ",").map (fun h => (jsTrim h).replace "\"" "")

/-- The optional `target_table` form field appended by handleDuplicatesCheck
and proceedWithInsert: present exactly when the `useExistingTable` value read
from the render snapshot is true, in which case it is
`schemaMatchData.matching_table`. -/
def resolvedTarget (snap : ComponentState) : Option String :=
  if snap.useExistingTable then
    match snap.schemaMatchData with
    | some d => d.matching_table
    | none => none
  else none

/-- The message produced by the catch blocks for a non-success HTTP status:
"Upload failed: " plus the Error built as HTTP error! status plus the
status. -/
def genericFailMsg (status : Nat) : String :=
  "Upload failed: HTTP error! status: " ++ toString status

/-- The message produced by the catch blocks when res.json() rejects. -/
def decodeFailMsg (txt : String) : String :=
  "Upload failed: " ++ txt

/-- proceedWithInsert: appends file, table_name, primary_column, the
conditional target_table and the proceed flag, posts to confirm-insert, and
on success merges inserted_rows / metadata (keyed on row_count > 0), sets the
backend message, step 5 and closes the duplicate dialog; its catch sets the
failure message and step 0; its finally clears loading. -/
def proceedWithInsert (snap p : ComponentState) (env : Env) (proceed : Bool) :
    ComponentState × List StageCall :=
  let p := { p with message := "Inserting rows..." }
  let call := StageCall.confirmInsert snap.file snap.tableName
    snap.primaryColumn (resolvedTarget snap) proceed
  match env.insertResult with
  | .httpError st _ =>
      ({ p with message := genericFailMsg st, step := 0, loading := false },
       [call])
  | .decodeError txt =>
      ({ p with message := decodeFailMsg txt, step := 0, loading := false },
       [call])
  | .ok d =>
      let p := { p with
        details := { p.details with
          inserted_rows :=
            if 0 < d.row_count then p.details.inserted_rows else [],
          metadata :=
            if 0 < d.row_count then
              some { table_name := d.table_name, file_id := d.file_id,
                     batch_id := d.batch_id, run_id := d.run_id,
                     row_count := d.row_count }
            else none },
        message := d.message, step := 5, showConfirmDialog := false,
        loading := false }
      (p, [call])

/-- Synchronous prefix of handleDuplicatesCheck, up to and including
dispatching the check-duplicates request: sets loading and the progress
message and builds the form data from the render snapshot. -/
def dupCheckSync (snap p : ComponentState) : ComponentState × StageCall :=
  let p := { p with loading := true, message := "Checking for duplicates..." }
  (p, StageCall.checkDuplicates snap.file snap.tableName snap.primaryColumn
    (resolvedTarget snap))

/-- Continuation of handleDuplicatesCheck once the response arrives.
`none` means the function aborted on an uncaught throw (non-success status,
or res.json() rejecting): handleDuplicatesCheck contains no try/catch and is
never awaited by a caller that could catch, so no further state change
happens. -/
def dupCheckCont (snap p : ComponentState) (env : Env) :
    Option (ComponentState × List StageCall) :=
  match env.dupResult with
  | .httpError _ _ => none
  | .decodeError _ => none
  | .ok d =>
      let p := { p with
        details := { p.details with
          duplicates := d.duplicates
          has_duplicates := d.has_duplicates }
        message := d.message }
      if d.has_duplicates then
        some ({ p with
          showConfirmDialog := true
          step := 4
          loading := false }, [])
      else
        let r := proceedWithInsert snap p env true
        some ({ r.1 with loading := false }, r.2)

/-- One full un-awaited handleDuplicatesCheck invocation.  When it is started
from inside handleUpload's try block (`uploadFinally = true`),
handleUpload's `finally setLoading(false)` runs after the synchronous prefix
and before the continuation. -/
def dupPhase (snap p : ComponentState) (env : Env) (uploadFinally : Bool) :
    ComponentState × List StageCall :=
  let r := dupCheckSync snap p
  let p1 := if uploadFinally then { r.1 with loading := false } else r.1
  match dupCheckCont snap p1 env with
  | none => (p1, [r.2])
  | some r2 => (r2.1, r.2 :: r2.2)

/-- handleSchemaMatchConfirm: records the choice (setUseExistingTable plus the
direct mutation `details.target_table = ...`), closes the dialog, and calls
handleDuplicatesCheck().  That call reads the render snapshot `snap`, so the
`useExistingTable` it sees is the stale pre-click value, not `useExisting`.
When `useExisting` is true and `schemaMatchData` is absent the JS code would
fault reading `.matching_table` of null; the dialog render gate makes that
state unreachable, and it is modelled as recording `none`. -/
def handleSchemaMatchConfirm (snap : ComponentState) (env : Env)
    (useExisting : Bool) : ComponentState × List StageCall :=
  let p := { snap with
    useExistingTable := useExisting
    showSchemaMatchDialog := false }
  let recorded : Option String :=
    if useExisting then
      match snap.schemaMatchData with
      | some d => d.matching_table
      | none => none
    else some snap.tableName
  let p := { p with details := { p.details with target_table := recorded } }
  dupPhase snap p env false

/-- handleUpload: the three local validations, then the infer-types,
sample-rows and generate-schema calls in sequence, each aborting to the catch
block (failure message, step 0) on a non-success status or a malformed body —
except the recognised infer-types failure text, which produces the distinct
primary-column message and returns without touching step.  On schema success
the matching_table field decides between opening the schema-match dialog and
invoking handleDuplicatesCheck() without await. -/
def handleUpload (snap : ComponentState) (env : Env) :
    ComponentState × List StageCall :=
  if snap.file.isNone then
    ({ snap with message := "Please select a file" }, [])
  else if jsTrim snap.tableName = "" then
    ({ snap with message := "Please provide a table name" }, [])
  else if jsTrim snap.primaryColumn = "" then
    ({ snap with message := "Please select a primary column" }, [])
  else
    let p := { snap with loading := true, message := "" }
    let p := { p with message := "Inferring data types..." }
    let c1 := StageCall.inferTypes snap.file snap.tableName snap.primaryColumn
    match env.inferResult with
    | .httpError st txt =>
        if strIncludes txt "Primary column" && strIncludes txt "not found" then
          ({ p with
             message := "Primary column validation failed. Please select from available columns.",
             loading := false }, [c1])
        else
          ({ p with
             message := genericFailMsg st
             step := 0
             loading := false }, [c1])
    | .decodeError txt =>
        ({ p with
           message := decodeFailMsg txt
           step := 0
           loading := false }, [c1])
    | .ok d1 =>
      let p := { p with
        details := { p.details with inferred_types := d1.inferred_types },
        step := 1 }
      let p := { p with message := "Sampling rows..." }
      let c2 := StageCall.sampleRows snap.file snap.tableName
        snap.primaryColumn
      match env.sampleResult with
      | .httpError st _ =>
          ({ p with
             message := genericFailMsg st
             step := 0
             loading := false }, [c1, c2])
      | .decodeError txt =>
          ({ p with
             message := decodeFailMsg txt
             step := 0
             loading := false }, [c1, c2])
      | .ok d2 =>
        let p := { p with
          details := { p.details with
            sample_row_numbers := d2.sample_row_numbers },
          step := 2 }
        let p := { p with message := "Generating schema..." }
        let c3 := StageCall.generateSchema snap.file snap.tableName
          snap.primaryColumn
        match env.schemaResult with
        | .httpError st _ =>
            ({ p with
               message := genericFailMsg st
               step := 0
               loading := false }, [c1, c2, c3])
        | .decodeError txt =>
            ({ p with
               message := decodeFailMsg txt
               step := 0
               loading := false }, [c1, c2, c3])
        | .ok d3 =>
          let p := { p with
            details := { p.details with
              schema_query := d3.schema_query
              target_table := d3.target_table } }
          if jsTruthyStr d3.matching_table then
            ({ p with
               schemaMatchData := some d3
               showSchemaMatchDialog := true
               step := 3
               loading := false },
             [c1, c2, c3])
          else
            let p := { p with step := 3 }
            let r := dupPhase snap p env true
            (r.1, [c1, c2, c3] ++ r.2)

/-- handleFileChange: stores the new file handle, unconditionally resets all
session fields to their initial values, and (when a file was selected) parses
the header line of its content into csvColumns. -/
def handleFileChange (snap : ComponentState) (selectedFile : Option Nat)
    (content : String) : ComponentState :=
  let p := { snap with
    file := selectedFile, tableName := "", primaryColumn := "",
    csvColumns := [], message := "", details := initialDetails, step := 0,
    showConfirmDialog := false, showSchemaMatchDialog := false,
    schemaMatchData := none, useExistingTable := false, batchData := none,
    selectedBatchId := none, selectedFileId := none }
  match selectedFile with
  | none => p
  | some _ => { p with csvColumns := parseCsvHeaders content }

/-- fetchBatchFileIds. -/
def fetchBatchFileIds (snap : ComponentState)
    (r : FetchResult (List BatchRec)) : ComponentState :=
  match r with
  | .ok l => { snap with batchFileIds := l }
  | .httpError st _ =>
      { snap with message :=
          "Failed to fetch batch and file IDs: HTTP error! status: " ++
          toString st }
  | .decodeError txt =>
      { snap with message := "Failed to fetch batch and file IDs: " ++ txt }

/-- handlePreviewBatch. -/
def handlePreviewBatch (snap : ComponentState) (batchId fileId : Nat)
    (r : FetchResult (List Row)) : ComponentState :=
  match r with
  | .ok rows =>
      { snap with
        batchData := some rows
        selectedBatchId := some batchId
        selectedFileId := some fileId }
  | .httpError st _ =>
      { snap with message :=
          "Failed to preview batch data: HTTP error! status: " ++
          toString st }
  | .decodeError txt =>
      { snap with message := "Failed to preview batch data: " ++ txt }

/-- handleDeleteBatch, with the window.confirm answer made explicit. -/
def handleDeleteBatch (snap : ComponentState) (batchId : Nat)
    (confirmed : Bool) (r : FetchResult String) : ComponentState :=
  if confirmed then
    match r with
    | .ok msg =>
        { snap with
          message := msg
          batchData := none
          selectedBatchId := none
          selectedFileId := none }
    | .httpError st _ =>
        { snap with message :=
            "Failed to delete batch data: HTTP error! status: " ++
            toString st }
    | .decodeError txt =>
        { snap with message := "Failed to delete batch data: " ++ txt }
  else snap

/-- One complete session run: the user clicks Upload, and then answers
whichever dialog the run opens (the schema-match dialog with `schemaChoice`,
the duplicate dialog with `dupChoice`).  Each dialog answer is a fresh event,
so its handler closes over the then-current state. -/
def runSession (s : ComponentState) (env : Env)
    (schemaChoice dupChoice : Bool) : ComponentState × List StageCall :=
  let r1 := handleUpload s env
  if r1.1.showSchemaMatchDialog then
    let r2 := handleSchemaMatchConfirm r1.1 env schemaChoice
    if r2.1.showConfirmDialog && r2.1.details.has_duplicates then
      let r3 := proceedWithInsert r2.1 r2.1 env dupChoice
      (r3.1, r1.2 ++ r2.2 ++ r3.2)
    else (r2.1, r1.2 ++ r2.2)
  else if r1.1.showConfirmDialog && r1.1.details.has_duplicates then
    let r2 := proceedWithInsert r1.1 r1.1 env dupChoice
    (r2.1, r1.2 ++ r2.2)
  else r1

/-- Render gate of the Inferred Data Types section. -/
def inferredTypesSectionShown (s : ComponentState) : Bool :=
  decide (1 ≤ s.step)

/-- Render gate of the Sample Row Numbers section. -/
def sampleRowsSectionShown (s : ComponentState) : Bool :=
  decide (2 ≤ s.step)

/-- Render gate of the Generated Schema section. -/
def schemaSectionShown (s : ComponentState) : Bool :=
  decide (3 ≤ s.step)

/-- Render gate of the Inserted Rows section: step 5 reached and
inserted_rows non-empty. -/
def insertedRowsSectionShown (s : ComponentState) : Bool :=
  decide (5 ≤ s.step) && decide (0 < s.details.inserted_rows.length)

/-- Render gate of the Metadata Information section: step 5 reached and the
metadata object non-empty. -/
def metadataSectionShown (s : ComponentState) : Bool :=
  decide (5 ≤ s.step) && s.details.metadata.isSome

/-- Render gate of the schema-match dialog. -/
def schemaMatchDialogShown (s : ComponentState) : Bool :=
  s.showSchemaMatchDialog && s.schemaMatchData.isSome

/-- Render gate of the duplicate-confirmation dialog. -/
def duplicateDialogShown (s : ComponentState) : Bool :=
  s.showConfirmDialog && s.details.has_duplicates

/-- The local validations at the top of handleUpload all pass. -/
def validStart (s : ComponentState) : Bool :=
  s.file.isSome && !(jsTrim s.tableName == "") && !(jsTrim s.primaryColumn == "")

/-- All states the component can reach through its event handlers, starting
from the useState initial values, over arbitrary backend responses and user
choices. -/
inductive Reachable : ComponentState → Prop where
  | init : Reachable initialState
  | fileChange {s} (f : Option Nat) (content : String) :
      Reachable s → Reachable (handleFileChange s f content)
  | tableNameInput {s} (t : String) :
      Reachable s → Reachable { s with tableName := t }
  | primaryColumnInput {s} (c : String) :
      Reachable s → Reachable { s with primaryColumn := c }
  | upload {s} (env : Env) : Reachable s → Reachable (handleUpload s env).1
  | schemaConfirm {s} (env : Env) (b : Bool) :
      Reachable s → Reachable (handleSchemaMatchConfirm s env b).1
  | duplicateChoice {s} (env : Env) (b : Bool) :
      Reachable s → Reachable (proceedWithInsert s s env b).1
  | registryFetch {s} (r : FetchResult (List BatchRec)) :
      Reachable s → Reachable (fetchBatchFileIds s r)
  | previewBatch {s} (bId fId : Nat) (r : FetchResult (List Row)) :
      Reachable s → Reachable (handlePreviewBatch s bId fId r)
  | deleteBatch {s} (bId : Nat) (c : Bool) (r : FetchResult String) :
      Reachable s → Reachable (handleDeleteBatch s bId c r)

/-- The check-duplicates request dispatched for the render snapshot snap. -/
def dupCall (snap : ComponentState) : StageCall :=
  StageCall.checkDuplicates snap.file snap.tableName snap.primaryColumn
    (resolvedTarget snap)

/-- The confirm-insert request dispatched for the render snapshot snap. -/
def insCall (snap : ComponentState) (pr : Bool) : StageCall :=
  StageCall.confirmInsert snap.file snap.tableName snap.primaryColumn
    (resolvedTarget snap) pr

/-- No collapsible detail section is rendered. -/
def allSectionsHidden (s : ComponentState) : Prop :=
  inferredTypesSectionShown s = false ∧ sampleRowsSectionShown s = false ∧
  schemaSectionShown s = false ∧ insertedRowsSectionShown s = false ∧
  metadataSectionShown s = false

/-- A quiescent, validly filled starting state used by the concrete
scenarios: file selected, table name sales, primary column id. -/
def egStart : ComponentState :=
  { initialState with
    file := some 1
    tableName := "sales"
    primaryColumn := "id"
    csvColumns := ["id", "name"] }

/-- Like egStart but with a primary column that is not one of the parsed
csv columns. -/
def egBadPrim : ComponentState :=
  { initialState with
    file := some 1
    tableName := "sales"
    primaryColumn := "zzz"
    csvColumns := ["id", "name"] }

/-- Schema response reporting a match with the existing table existing_t. -/
def egSchemaMatch : SchemaResp :=
  { schema_query := none, target_table := some "existing_t",
    matching_table := some "existing_t", csv_sample_rows := [],
    existing_sample_rows := [] }

/-- Schema response reporting no matching table. -/
def egSchemaNoMatch : SchemaResp :=
  { schema_query := some "CREATE TABLE sales", target_table := some "sales",
    matching_table := none, csv_sample_rows := [],
    existing_sample_rows := [] }

/-- Every stage succeeds, the schema stage reports a match, no duplicates. -/
def egEnvMatchNoDup : Env :=
  { inferResult := .ok { inferred_types := [("id", "integer")] },
    sampleResult := .ok { sample_row_numbers := [2, 5] },
    schemaResult := .ok egSchemaMatch,
    dupResult := .ok { duplicates := [], has_duplicates := false,
                       message := "No duplicates found" },
    insertResult := .ok { table_name := "existing_t", file_id := 3,
                          batch_id := 7, run_id := 1, row_count := 3,
                          message := "Inserted 3 rows" } }

/-- Every stage succeeds, no schema match, no duplicates. -/
def egEnvAllOk : Env :=
  { egEnvMatchNoDup with schemaResult := .ok egSchemaNoMatch }

/-- No schema match and the check-duplicates call fails with a 500. -/
def egEnvDupFail : Env :=
  { egEnvAllOk with dupResult := .httpError 500 "Internal Server Error" }

/-- The infer-types call fails with the recognised primary-column text. -/
def egEnvPrimErr : Env :=
  { egEnvAllOk with
    inferResult := .httpError 400 "Primary column zzz not found in CSV file" }

/-- Insert succeeds with zero rows written. -/
def egEnvZeroRows : Env :=
  { egEnvAllOk with
    insertResult := .ok { table_name := "sales", file_id := 3, batch_id := 7,
                          run_id := 1, row_count := 0,
                          message := "No new rows inserted" } }

/-- The trace of one proceedWithInsert invocation is exactly one
confirm-insert call, whatever the backend answers. -/
theorem proceedWithInsert_trace (snap p : ComponentState) (env : Env)
    (pr : Bool) : (proceedWithInsert snap p env pr).2 = [insCall snap pr] := by
  unfold proceedWithInsert insCall
  cases env.insertResult <;> simp

/-- proceedWithInsert never opens the duplicate dialog. -/
theorem proceedWithInsert_dialog (snap p : ComponentState) (env : Env)
    (pr : Bool) (hp : p.showConfirmDialog = false) :
    (proceedWithInsert snap p env pr).1.showConfirmDialog = false := by
  unfold proceedWithInsert
  cases env.insertResult <;> simp [hp]

/-- proceedWithInsert leaves the schema-match dialog flag unchanged. -/
theorem proceedWithInsert_smDialog (snap p : ComponentState) (env : Env)
    (pr : Bool) :
    (proceedWithInsert snap p env pr).1.showSchemaMatchDialog =
      p.showSchemaMatchDialog := by
  unfold proceedWithInsert
  cases env.insertResult <;> simp

/-- Case analysis of one un-awaited handleDuplicatesCheck invocation started
with the duplicate dialog closed: either the call fails and nothing else
happens, or duplicates are found and the dialog opens at step 4, or no
duplicates are found and the insert call is dispatched automatically. -/
theorem dupPhase_spec (snap p : ComponentState) (env : Env) (b : Bool)
    (hp : p.showConfirmDialog = false) :
    ((dupPhase snap p env b).2 = [dupCall snap]
      ∧ (dupPhase snap p env b).1.showConfirmDialog = false
      ∧ (dupPhase snap p env b).1.showSchemaMatchDialog =
          p.showSchemaMatchDialog
      ∧ (dupPhase snap p env b).1.step = p.step
      ∧ (dupPhase snap p env b).1.message = "Checking for duplicates..."
      ∧ env.dupResult.isOk = false)
  ∨ (∃ d, env.dupResult = .ok d ∧ d.has_duplicates = true
      ∧ (dupPhase snap p env b).2 = [dupCall snap]
      ∧ (dupPhase snap p env b).1.showConfirmDialog = true
      ∧ (dupPhase snap p env b).1.details.has_duplicates = true
      ∧ (dupPhase snap p env b).1.showSchemaMatchDialog =
          p.showSchemaMatchDialog
      ∧ (dupPhase snap p env b).1.step = 4)
  ∨ (∃ d, env.dupResult = .ok d ∧ d.has_duplicates = false
      ∧ (dupPhase snap p env b).2 = [dupCall snap, insCall snap true]
      ∧ (dupPhase snap p env b).1.showConfirmDialog = false
      ∧ (dupPhase snap p env b).1.showSchemaMatchDialog =
          p.showSchemaMatchDialog) := by
  unfold dupPhase dupCheckSync dupCheckCont dupCall
  cases hd : env.dupResult with
  | httpError st txt =>
      left
      cases b <;> simp [hd, FetchResult.isOk, hp]
  | decodeError txt =>
      left
      cases b <;> simp [hd, FetchResult.isOk, hp]
  | ok d =>
      by_cases hdup : d.has_duplicates = true
      · right; left
        refine ⟨d, rfl, hdup, ?_⟩
        cases b <;> simp [hdup]
      · right; right
        rw [Bool.not_eq_true] at hdup
        refine ⟨d, rfl, hdup, ?_⟩
        have ht := proceedWithInsert_trace
        have hdl := proceedWithInsert_dialog
        have hsm := proceedWithInsert_smDialog
        cases b <;>
          simp [hdup, ht, insCall, hdl, hsm, hp]

/-- Master case analysis: within one session run the emitted stage calls are
an initial segment of the pipeline order, and a stage call occurs only when
its predecessor returned a decoded success. -/
theorem runSession_stage_order (s : ComponentState) (env : Env) (c1 c2 : Bool)
    (h1 : s.showSchemaMatchDialog = false) (h2 : s.showConfirmDialog = false) :
    ((runSession s env c1 c2).2.map stageOf <+: [1, 2, 3, 4, 5])
    ∧ (hasStage (runSession s env c1 c2).2 2 = true →
        env.inferResult.isOk = true)
    ∧ (hasStage (runSession s env c1 c2).2 3 = true →
        env.sampleResult.isOk = true)
    ∧ (hasStage (runSession s env c1 c2).2 4 = true →
        env.schemaResult.isOk = true)
    ∧ (hasStage (runSession s env c1 c2).2 5 = true →
        env.dupResult.isOk = true) := by
  by_cases hf : s.file.isNone
  · simp [runSession, handleUpload, hf, h1, h2, hasStage]
  · by_cases htn : jsTrim s.tableName = ""
    · simp [runSession, handleUpload, hf, htn, h1, h2, hasStage]
    · by_cases hpc : jsTrim s.primaryColumn = ""
      · simp [runSession, handleUpload, hf, htn, hpc, h1, h2, hasStage]
      · cases hi : env.inferResult with
        | httpError st txt =>
          by_cases hsig : (strIncludes txt "Primary column" && strIncludes txt "not found") = true
          · simp [runSession, handleUpload, hf, htn, hpc, hi, hsig, h1, h2,
              hasStage, stageOf]
          · simp [runSession, handleUpload, hf, htn, hpc, hi, hsig, h1, h2,
              hasStage, stageOf]
        | decodeError txt =>
          simp [runSession, handleUpload, hf, htn, hpc, hi, h1, h2,
            hasStage, stageOf]
        | ok d1 =>
          cases hs : env.sampleResult with
          | httpError st txt =>
            simp [runSession, handleUpload, hf, htn, hpc, hi, hs, h1, h2,
              hasStage, stageOf, FetchResult.isOk]
          | decodeError txt =>
            simp [runSession, handleUpload, hf, htn, hpc, hi, hs, h1, h2,
              hasStage, stageOf, FetchResult.isOk]
          | ok d2 =>
            cases hg : env.schemaResult with
            | httpError st txt =>
              simp [runSession, handleUpload, hf, htn, hpc, hi, hs, hg, h1, h2,
                hasStage, stageOf, FetchResult.isOk]
            | decodeError txt =>
              simp [runSession, handleUpload, hf, htn, hpc, hi, hs, hg, h1, h2,
                hasStage, stageOf, FetchResult.isOk]
            | ok d3 =>
              cases hd : env.dupResult with
              | httpError st4 t4 =>
                by_cases hm : jsTruthyStr d3.matching_table = true
                · simp [runSession, handleUpload, handleSchemaMatchConfirm,
                    dupPhase, dupCheckSync, dupCheckCont, hf, htn, hpc, hi, hs,
                    hg, hd, hm, h1, h2, hasStage, stageOf, FetchResult.isOk]
                · simp [runSession, handleUpload, handleSchemaMatchConfirm,
                    dupPhase, dupCheckSync, dupCheckCont, hf, htn, hpc, hi, hs,
                    hg, hd, hm, h1, h2, hasStage, stageOf, FetchResult.isOk]
              | decodeError t4 =>
                by_cases hm : jsTruthyStr d3.matching_table = true
                · simp [runSession, handleUpload, handleSchemaMatchConfirm,
                    dupPhase, dupCheckSync, dupCheckCont, hf, htn, hpc, hi, hs,
                    hg, hd, hm, h1, h2, hasStage, stageOf, FetchResult.isOk]
                · simp [runSession, handleUpload, handleSchemaMatchConfirm,
                    dupPhase, dupCheckSync, dupCheckCont, hf, htn, hpc, hi, hs,
                    hg, hd, hm, h1, h2, hasStage, stageOf, FetchResult.isOk]
              | ok d4 =>
                by_cases hm : jsTruthyStr d3.matching_table = true <;>
                by_cases hdd : d4.has_duplicates = true <;>
                cases hins : env.insertResult <;>
                · simp [runSession, handleUpload, handleSchemaMatchConfirm,
                    dupPhase, dupCheckSync, dupCheckCont, proceedWithInsert,
                    hf, htn, hpc, hi, hs, hg, hd, hm, hdd, hins, h1, h2,
                    hasStage, stageOf, FetchResult.isOk]

/-- Claim C1 (refuted, code bug): in a fresh session where generate-schema
reports the matching table existing_t, the user clicks Use Existing Table and
check-duplicates reports no duplicates, the choice is recorded
(details.target_table = existing_t) but both the check-duplicates call and
the following confirm-insert call are dispatched with NO target_table field —
handleDuplicatesCheck reads the stale useExistingTable snapshot value — so
neither call is scoped to the matched table, contradicting the claim that
they carry the matched table name. -/
theorem claim1_choice_not_scoped :
    (runSession egStart egEnvMatchNoDup true true).1.details.target_table =
      some "existing_t"
  ∧ (runSession egStart egEnvMatchNoDup true true).2 =
      [.inferTypes (some 1) "sales" "id",
       .sampleRows (some 1) "sales" "id",
       .generateSchema (some 1) "sales" "id",
       .checkDuplicates (some 1) "sales" "id" none,
       .confirmInsert (some 1) "sales" "id" none true] :=
  ⟨rfl, rfl⟩

/-- Claim C8: selecting a new file, from any state whatsoever, resets every
accumulated session field — the whole details record (inferred types, sample
row numbers, schema query, duplicates, insert outcome, recorded target
table), the step, both pending dialogs, the stored schema-match data, the
use-existing choice and the entered identifiers — to its initial value. -/
theorem claim8_new_file_resets (s : ComponentState) (f : Option Nat)
    (content : String) :
    (handleFileChange s f content).details = initialDetails
  ∧ (handleFileChange s f content).step = 0
  ∧ (handleFileChange s f content).showSchemaMatchDialog = false
  ∧ (handleFileChange s f content).showConfirmDialog = false
  ∧ (handleFileChange s f content).schemaMatchData = none
  ∧ (handleFileChange s f content).useExistingTable = false
  ∧ (handleFileChange s f content).tableName = ""
  ∧ (handleFileChange s f content).primaryColumn = ""
  ∧ (handleFileChange s f content).message = ""
  ∧ (handleFileChange s f content).file = f := by
  unfold handleFileChange
  cases f <;> simp

/-- Claim C5 (refuted): a start whose primary column is non-blank but not
drawn from csvColumns is NOT rejected locally — the infer-types request is
dispatched anyway. -/
theorem claim5_counterexample :
    egBadPrim.primaryColumn ∉ egBadPrim.csvColumns
  ∧ jsTrim egBadPrim.primaryColumn ≠ ""
  ∧ (handleUpload egBadPrim egEnvAllOk).2.head? =
      some (.inferTypes (some 1) "sales" "zzz") := by
  refine ⟨by decide, by decide, rfl⟩

/-- Claim C5 (amended): the three checks handleUpload does perform — a
missing file, a blank table name, a blank primary column — each reject the
start with the corresponding validation message and dispatch no remote
call. -/
theorem claim5_local_validation (s : ComponentState) (env : Env)
    (h : validStart s = false) :
    (handleUpload s env).2 = []
  ∧ ((handleUpload s env).1.message = "Please select a file"
      ∨ (handleUpload s env).1.message = "Please provide a table name"
      ∨ (handleUpload s env).1.message = "Please select a primary column") := by
  unfold validStart at h
  unfold handleUpload
  by_cases hf : s.file.isNone
  · simp [hf]
  · by_cases htn : jsTrim s.tableName = ""
    · simp [hf, htn]
    · by_cases hpc : jsTrim s.primaryColumn = ""
      · simp [hf, htn, hpc]
      · exfalso
        have hsome : s.file.isSome = true := by
          cases hv : s.file
          · rw [hv] at hf; exact absurd rfl hf
          · rfl
        rw [hsome] at h
        simp [htn, hpc] at h

/-- Claim C9 (refuted for the check-duplicates stage): when the
check-duplicates call fails, the session does NOT abort to the failed state:
the rejection is unhandled, the step stays at 3 with the in-progress message,
and the schema section (produced two stages earlier in the same run) remains
visible. -/
theorem claim9_counterexample :
    egEnvDupFail.dupResult.isOk = false
  ∧ hasStage (handleUpload egStart egEnvDupFail).2 4 = true
  ∧ (handleUpload egStart egEnvDupFail).1.step = 3
  ∧ (handleUpload egStart egEnvDupFail).1.message =
      "Checking for duplicates..."
  ∧ schemaSectionShown (handleUpload egStart egEnvDupFail).1 = true :=
  ⟨rfl, rfl, rfl, rfl, rfl⟩

/-- Any state with step 0 renders no detail section. -/
theorem allSectionsHidden_of_step_zero (s : ComponentState) (h : s.step = 0) :
    allSectionsHidden s := by
  simp [allSectionsHidden, inferredTypesSectionShown, sampleRowsSectionShown,
    schemaSectionShown, insertedRowsSectionShown, metadataSectionShown, h]

/-- When the start is valid and the first four stages all decode
successfully, a session run issues all five stage calls. -/
theorem runSession_complete (s : ComponentState) (env : Env) (c1 c2 : Bool)
    (h1 : s.showSchemaMatchDialog = false) (h2 : s.showConfirmDialog = false)
    (hv : validStart s = true)
    (k1 : env.inferResult.isOk = true) (k2 : env.sampleResult.isOk = true)
    (k3 : env.schemaResult.isOk = true) (k4 : env.dupResult.isOk = true) :
    (runSession s env c1 c2).2.map stageOf = [1, 2, 3, 4, 5] := by
  simp only [validStart, Bool.and_eq_true] at hv
  obtain ⟨⟨hs, ht⟩, hp⟩ := hv
  have hf : s.file.isNone = false := by
    cases hx : s.file with
    | none => rw [hx] at hs; simp at hs
    | some v => rfl
  have htn : ¬ jsTrim s.tableName = "" := by simpa using ht
  have hpc : ¬ jsTrim s.primaryColumn = "" := by simpa using hp
  cases hi : env.inferResult with
  | httpError st txt => rw [hi] at k1; simp [FetchResult.isOk] at k1
  | decodeError txt => rw [hi] at k1; simp [FetchResult.isOk] at k1
  | ok d1 =>
    cases hsa : env.sampleResult with
    | httpError st txt => rw [hsa] at k2; simp [FetchResult.isOk] at k2
    | decodeError txt => rw [hsa] at k2; simp [FetchResult.isOk] at k2
    | ok d2 =>
      cases hg : env.schemaResult with
      | httpError st txt => rw [hg] at k3; simp [FetchResult.isOk] at k3
      | decodeError txt => rw [hg] at k3; simp [FetchResult.isOk] at k3
      | ok d3 =>
        cases hd : env.dupResult with
        | httpError st txt => rw [hd] at k4; simp [FetchResult.isOk] at k4
        | decodeError txt => rw [hd] at k4; simp [FetchResult.isOk] at k4
        | ok d4 =>
          by_cases hm : jsTruthyStr d3.matching_table = true <;>
          by_cases hdd : d4.has_duplicates = true <;>
          cases hins : env.insertResult <;>
          simp [runSession, handleUpload, handleSchemaMatchConfirm, dupPhase,
            dupCheckSync, dupCheckCont, proceedWithInsert, hf, htn, hpc, hi,
            hsa, hg, hd, hm, hdd, hins, h1, h2, stageOf]

/-- Claim C2: within any session run started from a quiescent state, the
emitted stage calls form an initial segment of the fixed order
infer-types, sample-rows, generate-schema, check-duplicates, confirm-insert;
a stage call is only ever issued after its predecessor decoded successfully;
and when the start is valid and the first four stages succeed, all five are
issued. -/
theorem claim2_fixed_stage_order (s : ComponentState) (env : Env)
    (c1 c2 : Bool) (h1 : s.showSchemaMatchDialog = false)
    (h2 : s.showConfirmDialog = false) :
    ((runSession s env c1 c2).2.map stageOf <+: [1, 2, 3, 4, 5])
    ∧ (hasStage (runSession s env c1 c2).2 2 = true →
        env.inferResult.isOk = true)
    ∧ (hasStage (runSession s env c1 c2).2 3 = true →
        env.sampleResult.isOk = true)
    ∧ (hasStage (runSession s env c1 c2).2 4 = true →
        env.schemaResult.isOk = true)
    ∧ (hasStage (runSession s env c1 c2).2 5 = true →
        env.dupResult.isOk = true)
    ∧ (validStart s = true → env.inferResult.isOk = true →
        env.sampleResult.isOk = true → env.schemaResult.isOk = true →
        env.dupResult.isOk = true →
        (runSession s env c1 c2).2.map stageOf = [1, 2, 3, 4, 5]) := by
  obtain ⟨a, b, c, d, e⟩ := runSession_stage_order s env c1 c2 h1 h2
  exact ⟨a, b, c, d, e, fun hv k1 k2 k3 k4 =>
    runSession_complete s env c1 c2 h1 h2 hv k1 k2 k3 k4⟩

/-- Witness for claim C2 at a concrete run in which every stage succeeds. -/
theorem claim2_fixed_stage_order_witness :
    (runSession egStart egEnvAllOk true true).2.map stageOf <+:
      [1, 2, 3, 4, 5] :=
  (claim2_fixed_stage_order egStart egEnvAllOk true true rfl rfl).1

/-- Claim C3: after the first three stages succeed, the schema-match pause is
entered exactly when the schema stage reports a (truthy) matching table; when
it reports none the run proceeds directly into the check-duplicates call with
no schema-match dialog shown. -/
theorem claim3_pause_iff_match (s : ComponentState) (env : Env)
    (d1 : InferResp) (d2 : SampleResp) (d3 : SchemaResp)
    (hf : s.file.isNone = false) (htn : ¬ jsTrim s.tableName = "")
    (hpc : ¬ jsTrim s.primaryColumn = "")
    (hq : s.showSchemaMatchDialog = false)
    (h1 : env.inferResult = .ok d1) (h2 : env.sampleResult = .ok d2)
    (h3 : env.schemaResult = .ok d3) :
    ((handleUpload s env).1.showSchemaMatchDialog = true ↔
        jsTruthyStr d3.matching_table = true)
  ∧ (hasStage (handleUpload s env).2 4 = true ↔
        jsTruthyStr d3.matching_table = false) := by
  by_cases hm : jsTruthyStr d3.matching_table = true
  · simp [handleUpload, hf, htn, hpc, h1, h2, h3, hm, hasStage, stageOf]
  · cases hd : env.dupResult with
    | httpError st txt =>
      simp [handleUpload, hf, htn, hpc, h1, h2, h3, hm, hq, hd, dupPhase,
        dupCheckSync, dupCheckCont, hasStage, stageOf]
    | decodeError txt =>
      simp [handleUpload, hf, htn, hpc, h1, h2, h3, hm, hq, hd, dupPhase,
        dupCheckSync, dupCheckCont, hasStage, stageOf]
    | ok d4 =>
      by_cases hdd : d4.has_duplicates = true <;>
      cases hins : env.insertResult <;>
      simp [handleUpload, hf, htn, hpc, h1, h2, h3, hm, hq, hd, hdd, hins,
        dupPhase, dupCheckSync, dupCheckCont, proceedWithInsert, hasStage,
        stageOf]

/-- Witness for claim C3: in the all-success no-match run the dialog is not
shown and the check-duplicates call is issued. -/
theorem claim3_pause_iff_match_witness :
    hasStage (handleUpload egStart egEnvAllOk).2 4 = true ↔
      jsTruthyStr egSchemaNoMatch.matching_table = false :=
  (claim3_pause_iff_match egStart egEnvAllOk
    { inferred_types := [("id", "integer")] }
    { sample_row_numbers := [2, 5] } egSchemaNoMatch rfl (by decide)
    (by decide) rfl rfl rfl rfl).2

/-- Claim C4: once check-duplicates decodes with has_duplicates = false the
confirm-insert call is dispatched automatically with proceed = true and no
duplicate dialog opens; and a decline from the dialog still dispatches the
confirm-insert call, with proceed = false, never skipping it. -/
theorem claim4_insert_always_terminal (snap p : ComponentState) (env : Env)
    (b : Bool) (d : DupResp) (hp : p.showConfirmDialog = false)
    (hd : env.dupResult = .ok d) (hnd : d.has_duplicates = false) :
    ((dupPhase snap p env b).2 = [dupCall snap, insCall snap true]
      ∧ (dupPhase snap p env b).1.showConfirmDialog = false)
  ∧ (∀ (s2 p2 : ComponentState) (env2 : Env),
      (proceedWithInsert s2 p2 env2 false).2 = [insCall s2 false]) := by
  constructor
  · rcases dupPhase_spec snap p env b hp with
      ⟨_, _, _, _, _, hno⟩ | ⟨d2, hd2, hdd2, _⟩ | ⟨d2, hd2, _, htr, hdl, _⟩
    · rw [hd] at hno; simp [FetchResult.isOk] at hno
    · rw [hd] at hd2
      injection hd2 with hd3
      rw [hd3] at hnd
      rw [hnd] at hdd2
      exact absurd hdd2 (by simp)
    · exact ⟨htr, hdl⟩
  · intro s2 p2 env2
    exact proceedWithInsert_trace s2 p2 env2 false

/-- Witness for claim C4 at the concrete no-duplicates run. -/
theorem claim4_insert_always_terminal_witness :
    (dupPhase egStart egStart egEnvAllOk true).2 =
      [dupCall egStart, insCall egStart true] :=
  (claim4_insert_always_terminal egStart egStart egEnvAllOk true
    { duplicates := [], has_duplicates := false,
      message := "No duplicates found" } rfl rfl rfl).1.1

/-- Claim C7: a successful confirm-insert with row_count = 0 ends the session
at step 5 with empty metadata, an empty inserted_rows list and a hidden
inserted-rows section, carrying the backend message rather than an error;
with row_count > 0 the five metadata fields are recorded. -/
theorem claim7_zero_row_insert (snap p : ComponentState) (env : Env)
    (pr : Bool) (d : InsertResp) (he : env.insertResult = .ok d) :
    (d.row_count = 0 →
        (proceedWithInsert snap p env pr).1.step = 5
      ∧ (proceedWithInsert snap p env pr).1.details.metadata = none
      ∧ (proceedWithInsert snap p env pr).1.details.inserted_rows = []
      ∧ (proceedWithInsert snap p env pr).1.message = d.message
      ∧ insertedRowsSectionShown (proceedWithInsert snap p env pr).1 = false)
  ∧ (0 < d.row_count →
        (proceedWithInsert snap p env pr).1.details.metadata =
          some { table_name := d.table_name, file_id := d.file_id,
                 batch_id := d.batch_id, run_id := d.run_id,
                 row_count := d.row_count }
      ∧ (proceedWithInsert snap p env pr).1.step = 5
      ∧ (proceedWithInsert snap p env pr).1.message = d.message) := by
  constructor
  · intro h0
    simp [proceedWithInsert, he, h0, insertedRowsSectionShown]
  · intro hpos
    simp [proceedWithInsert, he, hpos]

/-- Witness for claim C7 at the concrete zero-row insert response. -/
theorem claim7_zero_row_insert_witness :
    (proceedWithInsert egStart egStart egEnvZeroRows true).1.details.metadata =
      none :=
  ((claim7_zero_row_insert egStart egStart egEnvZeroRows true
    { table_name := "sales", file_id := 3, batch_id := 7, run_id := 1,
      row_count := 0, message := "No new rows inserted" } rfl).1 rfl).2.1

/-- Claim C6: a failed infer-types response whose text matches the
primary-column signature produces the distinct user-actionable message —
which is not of the generic transport-failure form — and the run stops after
that single call; moreover, in every session run from a quiescent state no
stage endpoint is ever called more than once (no automatic retry). -/
theorem claim6_primary_column_error (s : ComponentState) (env : Env)
    (st : Nat) (txt : String)
    (hf : s.file.isNone = false) (htn : ¬ jsTrim s.tableName = "")
    (hpc : ¬ jsTrim s.primaryColumn = "")
    (he : env.inferResult = .httpError st txt)
    (hsig : (strIncludes txt "Primary column" &&
              strIncludes txt "not found") = true) :
    (handleUpload s env).1.message =
      "Primary column validation failed. Please select from available columns."
  ∧ (handleUpload s env).2 =
      [StageCall.inferTypes s.file s.tableName s.primaryColumn]
  ∧ (∀ t : String,
      "Primary column validation failed. Please select from available columns."
        ≠ "Upload failed: " ++ t)
  ∧ (∀ (s2 : ComponentState) (env2 : Env) (b1 b2 : Bool) (k : Nat),
      s2.showSchemaMatchDialog = false → s2.showConfirmDialog = false →
      ((runSession s2 env2 b1 b2).2.map stageOf).count k ≤ 1) := by
  refine ⟨?_, ?_, ?_, ?_⟩
  · simp [handleUpload, hf, htn, hpc, he, hsig]
  · simp [handleUpload, hf, htn, hpc, he, hsig]
  · intro t h
    obtain ⟨l⟩ := t
    have h1 := congrArg (fun q : String => q.data.head?) h
    simp only [] at h1
    rw [show (("Upload failed: " ++ (⟨l⟩ : String)).data.head?) = some 'U'
      from rfl] at h1
    rw [show
      (("Primary column validation failed. Please select from available columns." :
        String).data.head?) = some 'P' from rfl] at h1
    exact absurd h1 (by decide)
  · intro s2 env2 b1 b2 k hq1 hq2
    have ho := (runSession_stage_order s2 env2 b1 b2 hq1 hq2).1
    have h2 := List.Sublist.count_le ho.sublist k
    have h3 : List.count k [1, 2, 3, 4, 5] ≤ 1 :=
      List.nodup_iff_count_le_one.mp (by decide) k
    omega

/-- Witness for claim C6 at a concrete recognised infer-types failure. -/
theorem claim6_primary_column_error_witness :
    (handleUpload egStart egEnvPrimErr).1.message =
      "Primary column validation failed. Please select from available columns." :=
  (claim6_primary_column_error egStart egEnvPrimErr 400
    "Primary column zzz not found in CSV file" rfl (by decide) (by decide)
    rfl (by decide)).1

/-- Claim C9 (amended): a failing infer-types, sample-rows, generate-schema
or confirm-insert call aborts the run — step resets to 0 so the presenter
hides every detail section (the stale details values stay in memory but
nothing is rendered) — whereas a failing check-duplicates call does NOT
abort: its rejection is unhandled, the session stays at step 3 with the
in-progress message, and the sections of the first three stages remain
visible. -/
theorem claim9_stage_failure_behavior (s : ComponentState) (env : Env)
    (hf : s.file.isNone = false) (htn : ¬ jsTrim s.tableName = "")
    (hpc : ¬ jsTrim s.primaryColumn = "") :
    (∀ st txt, env.inferResult = .httpError st txt →
        (strIncludes txt "Primary column" &&
          strIncludes txt "not found") = false →
        (handleUpload s env).1.step = 0
      ∧ (handleUpload s env).1.message = genericFailMsg st
      ∧ allSectionsHidden (handleUpload s env).1)
  ∧ (∀ txt, env.inferResult = .decodeError txt →
        (handleUpload s env).1.step = 0
      ∧ allSectionsHidden (handleUpload s env).1)
  ∧ (∀ d1, env.inferResult = .ok d1 → env.sampleResult.isOk = false →
        (handleUpload s env).1.step = 0
      ∧ allSectionsHidden (handleUpload s env).1)
  ∧ (∀ d1 d2, env.inferResult = .ok d1 → env.sampleResult = .ok d2 →
        env.schemaResult.isOk = false →
        (handleUpload s env).1.step = 0
      ∧ allSectionsHidden (handleUpload s env).1)
  ∧ (∀ (p2 : ComponentState) (pr : Bool), env.insertResult.isOk = false →
        (proceedWithInsert s p2 env pr).1.step = 0
      ∧ allSectionsHidden (proceedWithInsert s p2 env pr).1)
  ∧ (∀ d1 d2 d3, env.inferResult = .ok d1 → env.sampleResult = .ok d2 →
        env.schemaResult = .ok d3 → jsTruthyStr d3.matching_table = false →
        env.dupResult.isOk = false →
        (handleUpload s env).1.step = 3
      ∧ (handleUpload s env).1.message = "Checking for duplicates..."
      ∧ schemaSectionShown (handleUpload s env).1 = true
      ∧ hasStage (handleUpload s env).2 4 = true) := by
  refine ⟨?_, ?_, ?_, ?_, ?_, ?_⟩
  · intro st txt he hsig
    have hstep : (handleUpload s env).1.step = 0 := by
      simp [handleUpload, hf, htn, hpc, he, hsig]
    exact ⟨hstep, by simp [handleUpload, hf, htn, hpc, he, hsig,
      genericFailMsg], allSectionsHidden_of_step_zero _ hstep⟩
  · intro txt he
    have hstep : (handleUpload s env).1.step = 0 := by
      simp [handleUpload, hf, htn, hpc, he]
    exact ⟨hstep, allSectionsHidden_of_step_zero _ hstep⟩
  · intro d1 he hsf
    have hstep : (handleUpload s env).1.step = 0 := by
      cases hsa : env.sampleResult with
      | httpError st2 t2 => simp [handleUpload, hf, htn, hpc, he, hsa]
      | decodeError t2 => simp [handleUpload, hf, htn, hpc, he, hsa]
      | ok d2 => rw [hsa] at hsf; simp [FetchResult.isOk] at hsf
    exact ⟨hstep, allSectionsHidden_of_step_zero _ hstep⟩
  · intro d1 d2 he hsa hgf
    have hstep : (handleUpload s env).1.step = 0 := by
      cases hg : env.schemaResult with
      | httpError st2 t2 => simp [handleUpload, hf, htn, hpc, he, hsa, hg]
      | decodeError t2 => simp [handleUpload, hf, htn, hpc, he, hsa, hg]
      | ok d3 => rw [hg] at hgf; simp [FetchResult.isOk] at hgf
    exact ⟨hstep, allSectionsHidden_of_step_zero _ hstep⟩
  · intro p2 pr hif
    have hstep : (proceedWithInsert s p2 env pr).1.step = 0 := by
      cases hins : env.insertResult with
      | httpError st2 t2 => simp [proceedWithInsert, hins]
      | decodeError t2 => simp [proceedWithInsert, hins]
      | ok d5 => rw [hins] at hif; simp [FetchResult.isOk] at hif
    exact ⟨hstep, allSectionsHidden_of_step_zero _ hstep⟩
  · intro d1 d2 d3 he hsa hg hm hdf
    cases hd : env.dupResult with
    | httpError st2 t2 =>
      refine ⟨?_, ?_, ?_, ?_⟩ <;>
        simp [handleUpload, hf, htn, hpc, he, hsa, hg, hm, hd, dupPhase,
          dupCheckSync, dupCheckCont, schemaSectionShown, hasStage, stageOf]
    | decodeError t2 =>
      refine ⟨?_, ?_, ?_, ?_⟩ <;>
        simp [handleUpload, hf, htn, hpc, he, hsa, hg, hm, hd, dupPhase,
          dupCheckSync, dupCheckCont, schemaSectionShown, hasStage, stageOf]
    | ok d4 => rw [hd] at hdf; simp [FetchResult.isOk] at hdf

/-- Witness for the amended claim C9 at the concrete dup-failure run. -/
theorem claim9_stage_failure_behavior_witness :
    (handleUpload egStart egEnvDupFail).1.step = 3 :=
  ((claim9_stage_failure_behavior egStart egEnvDupFail rfl (by decide)
    (by decide)).2.2.2.2.2 { inferred_types := [("id", "integer")] }
    { sample_row_numbers := [2, 5] } egSchemaNoMatch rfl rfl rfl rfl rfl).1

/-- Witness for the amended claim C5 at the empty initial state. -/
theorem claim5_local_validation_witness :
    (handleUpload initialState egEnvAllOk).2 = [] :=
  (claim5_local_validation initialState egEnvAllOk rfl).1

/-- proceedWithInsert cannot make inserted_rows non-empty. -/
theorem proceedWithInsert_inserted_rows (snap p : ComponentState) (env : Env)
    (pr : Bool) (h : p.details.inserted_rows = []) :
    (proceedWithInsert snap p env pr).1.details.inserted_rows = [] := by
  unfold proceedWithInsert
  cases env.insertResult <;> simp [h]

/-- dupPhase cannot make inserted_rows non-empty. -/
theorem dupPhase_inserted_rows (snap p : ComponentState) (env : Env)
    (b : Bool) (h : p.details.inserted_rows = []) :
    (dupPhase snap p env b).1.details.inserted_rows = [] := by
  unfold dupPhase dupCheckSync dupCheckCont
  cases env.dupResult with
  | httpError st txt => cases b <;> simp [h]
  | decodeError txt => cases b <;> simp [h]
  | ok d =>
    by_cases hdd : d.has_duplicates = true
    · cases b <;> simp [hdd, h]
    · rw [Bool.not_eq_true] at hdd
      cases b <;>
        · simp only [hdd, Bool.false_eq_true, if_false]
          apply proceedWithInsert_inserted_rows
          simp [h]

/-- handleUpload cannot make inserted_rows non-empty. -/
theorem handleUpload_inserted_rows (s : ComponentState) (env : Env)
    (h : s.details.inserted_rows = []) :
    (handleUpload s env).1.details.inserted_rows = [] := by
  unfold handleUpload
  by_cases hf : s.file.isNone
  · simp [hf, h]
  · by_cases htn : jsTrim s.tableName = ""
    · simp [hf, htn, h]
    · by_cases hpc : jsTrim s.primaryColumn = ""
      · simp [hf, htn, hpc, h]
      · cases hi : env.inferResult with
        | httpError st txt =>
          by_cases hsig : (strIncludes txt "Primary column" &&
              strIncludes txt "not found") = true
          · simp [hf, htn, hpc, hsig, h]
          · simp [hf, htn, hpc, hsig, h]
        | decodeError txt => simp [hf, htn, hpc, h]
        | ok d1 =>
          cases hsa : env.sampleResult with
          | httpError st txt => simp [hf, htn, hpc, h]
          | decodeError txt => simp [hf, htn, hpc, h]
          | ok d2 =>
            cases hg : env.schemaResult with
            | httpError st txt => simp [hf, htn, hpc, h]
            | decodeError txt => simp [hf, htn, hpc, h]
            | ok d3 =>
              by_cases hm : jsTruthyStr d3.matching_table = true
              · simp [hf, htn, hpc, hm, h]
              · simp only [hf, htn, hpc, hm]
                simp only [Bool.false_eq_true, if_false, ite_false]
                apply dupPhase_inserted_rows
                simp [h]

/-- handleSchemaMatchConfirm cannot make inserted_rows non-empty. -/
theorem handleSchemaMatchConfirm_inserted_rows (s : ComponentState)
    (env : Env) (b : Bool) (h : s.details.inserted_rows = []) :
    (handleSchemaMatchConfirm s env b).1.details.inserted_rows = [] := by
  unfold handleSchemaMatchConfirm
  apply dupPhase_inserted_rows
  simp [h]

/-- Claim C10: in every reachable component state the inserted_rows list is
empty — no handler ever writes rows into it — so the Inserted Rows section,
gated on it being non-empty, is never rendered. -/
theorem claim10_inserted_rows_always_empty (s : ComponentState)
    (h : Reachable s) :
    s.details.inserted_rows = [] ∧ insertedRowsSectionShown s = false := by
  have key : s.details.inserted_rows = [] := by
    induction h with
    | init => rfl
    | fileChange f content _ ih =>
      unfold handleFileChange
      cases f <;> simp [initialDetails]
    | tableNameInput t _ ih => simpa using ih
    | primaryColumnInput c _ ih => simpa using ih
    | upload env _ ih => exact handleUpload_inserted_rows _ env ih
    | schemaConfirm env b _ ih =>
      exact handleSchemaMatchConfirm_inserted_rows _ env b ih
    | duplicateChoice env b _ ih =>
      exact proceedWithInsert_inserted_rows _ _ env b ih
    | registryFetch r _ ih =>
      unfold fetchBatchFileIds
      cases r <;> simpa using ih
    | previewBatch bId fId r _ ih =>
      unfold handlePreviewBatch
      cases r <;> simpa using ih
    | deleteBatch bId c r _ ih =>
      unfold handleDeleteBatch
      cases c <;> cases r <;> simpa using ih
  exact ⟨key, by simp [insertedRowsSectionShown, key]⟩

/-- Witness for claim C10 at the initial state. -/
theorem claim10_inserted_rows_always_empty_witness :
    initialState.details.inserted_rows = []
  ∧ insertedRowsSectionShown initialState = false :=
  claim10_inserted_rows_always_empty initialState Reachable.init

end DataPrep
